import Mathlib

/-!
Verification of the Auto-Claude provider-resolution and command-dispatch core.

Shallow embedding of:
* `src/apps/backend/core/cli_manager.py` — `CLIManager._detect_cli`,
  `CLIManager.get_opencode_provider`, `CLIManager.validate_cli`, and the
  `CLIType` / `CLIProvider` enumerations;
* `src/apps/backend/cli/main.py` — `parse_args` (the mutually exclusive
  argument groups) and `_run_cli` (precondition checks and terminal-operation
  dispatch).

Python-level behaviour that the claims depend on is modelled explicitly:
string `strip`/`lower`, truthiness of decoded JSON values, `str()` of decoded
JSON values, `dict.get`, and the distinction between exceptions that the
source catches (`json.JSONDecodeError`, `IOError`/`OSError`) and those it does
not (`AttributeError` raised by calling `.get` on a non-dict).
-/

namespace AutoClaude

/-! ## Python string primitives -/

/-- The ASCII whitespace characters removed by Python `str.strip()`. -/
def isPyWhitespace (c : Char) : Bool :=
  c = ' ' || c = '\t' || c = '\n' || c = '\r' || c = '\x0b' || c = '\x0c'

/-- Python `str.strip()` (restricted to ASCII whitespace). -/
def pyStrip (s : String) : String :=
  String.mk (((s.toList.dropWhile isPyWhitespace).reverse.dropWhile isPyWhitespace).reverse)

/-- Python `str.lower()` (ASCII case folding, which covers every literal the
source compares against). -/
def pyLower (s : String) : String :=
  String.mk (s.toList.map Char.toLower)

/-- Python `a or b` on strings: `a` when `a` is truthy (non-empty), else `b`. -/
def pyOr (a b : String) : String :=
  if a = "" then b else a

/-! ## Process environment

`os.environ` is modelled as an association list; `os.environ[k] = v` prepends
and `os.environ.get` takes the first match, which is observationally the
mutate-in-place semantics of a real environment. -/

abbrev Env := List (String × String)

/-- `os.environ.get(k)`. -/
def envGet : Env → String → Option String
  | [], _ => none
  | (k, v) :: e, q => if q = k then some v else envGet e q

/-- `os.environ.get(k, d)`. -/
def envGetD (e : Env) (k d : String) : String :=
  (envGet e k).getD d

/-- `os.environ[k] = v`. -/
def envSet (e : Env) (k v : String) : Env :=
  (k, v) :: e

/-! ## Decoded JSON documents -/

/-- A decoded JSON document, as produced by `json.load`.  Numbers are modelled
as integers; no claim depends on numeric content. -/
inductive Json where
  | null : Json
  | bool (b : Bool) : Json
  | num (n : Int) : Json
  | str (s : String) : Json
  | arr (xs : List Json) : Json
  | obj (fields : List (String × Json)) : Json

/-- Python truthiness of a decoded JSON value. -/
def truthy : Json → Bool
  | .null => false
  | .bool b => b
  | .num n => n ≠ 0
  | .str s => s ≠ ""
  | .arr xs => !xs.isEmpty
  | .obj fs => !fs.isEmpty

mutual

/-- Python `repr()` of a decoded JSON value (containers print their elements;
strings print quoted). -/
def pyRepr : Json → String
  | .null => "None"
  | .bool b => if b then "True" else "False"
  | .num n => toString n
  | .str s => "\x27" ++ s ++ "\x27"
  | .arr xs => "[" ++ pyReprList xs ++ "]"
  | .obj fs => "\x7b" ++ pyReprFields fs ++ "\x7d"

/-- Comma-separated `repr()`s of a list of values. -/
def pyReprList : List Json → String
  | [] => ""
  | [x] => pyRepr x
  | x :: xs => pyRepr x ++ ", " ++ pyReprList xs

/-- Comma-separated `repr()`s of the key/value pairs of a dict. -/
def pyReprFields : List (String × Json) → String
  | [] => ""
  | [(k, v)] => "\x27" ++ k ++ "\x27: " ++ pyRepr v
  | (k, v) :: fs => "\x27" ++ k ++ "\x27: " ++ pyRepr v ++ ", " ++ pyReprFields fs

end

/-- Python `str()` of a decoded JSON value. -/
def pyStr : Json → String
  | .str s => s
  | j => pyRepr j

/-- Python `dict.get(k)` on a decoded JSON object; for duplicate keys the last
occurrence wins, as in `json.load`. -/
def objGet (fs : List (String × Json)) (k : String) : Option Json :=
  ((fs.reverse.find? (fun p => p.1 = k)).map (fun p => p.2))

/-! ## The state of the settings file

`.auto-claude/settings.json` as each resolver observes it. -/

inductive SettingsFile where
  /-- `settings_path.exists()` is false. -/
  | absent : SettingsFile
  /-- The file exists but `open`/read raises `IOError`/`OSError`. -/
  | unreadable : SettingsFile
  /-- The file is read but `json.load` raises `json.JSONDecodeError`. -/
  | malformed : SettingsFile
  /-- The file parses to the given JSON document. -/
  | parsed (doc : Json) : SettingsFile

/-- A Python exception that escapes an embedded function uncaught. -/
inductive PyErr where
  | attributeError : PyErr
deriving DecidableEq, Repr

/-! ## CLIType and provider detection (`CLIManager._detect_cli`) -/

/-- `CLIType` enumeration (cli_manager.py lines 23-26). -/
inductive CLIType where
  | CLAUDE : CLIType
  | OPENCODE : CLIType
deriving DecidableEq, Repr

/-- `CLIType.value`. -/
def CLIType.value : CLIType → String
  | .CLAUDE => "claude"
  | .OPENCODE => "opencode"

instance : DecidableEq (Except PyErr CLIType) := fun a b =>
  match a, b with
  | .ok x, .ok y => decidable_of_iff (x = y) (by simp)
  | .error x, .error y => decidable_of_iff (x = y) (by simp)
  | .ok _, .error _ => isFalse (by simp)
  | .error _, .ok _ => isFalse (by simp)

/-- Outcome of `CLIManager._detect_cli`, together with whether the
invalid-`CLI_PROVIDER` warning (lines 90-94) and the invalid-settings warning
(lines 112-115) were emitted. -/
structure DetectOutcome where
  result : Except PyErr CLIType
  envWarned : Bool
  settingsWarned : Bool
deriving DecidableEq, Repr

/-- The settings-file step of `_detect_cli` (cli_manager.py lines 96-121):
read the file, take `settings.get("cli")`, normalize and compare.  The
`except` clause catches only `json.JSONDecodeError`, `IOError` and `OSError`,
so `settings.get` on a non-dict document raises `AttributeError` uncaught.
Returns the resulting `CLIType` (or the escaping exception) and whether the
invalid-value warning fired. -/
def settingsStep : SettingsFile → Except PyErr CLIType × Bool
  | .absent => (.ok .CLAUDE, false)
  | .unreadable => (.ok .CLAUDE, false)
  | .malformed => (.ok .CLAUDE, false)
  | .parsed (.obj fs) =>
    match objGet fs "cli" with
    | none => (.ok .CLAUDE, false)
    | some v =>
      if truthy v then
        let cli := pyLower (pyStrip (pyStr v))
        if cli = CLIType.OPENCODE.value then (.ok .OPENCODE, false)
        else if cli = CLIType.CLAUDE.value then (.ok .CLAUDE, false)
        else (.ok .CLAUDE, true)
      else (.ok .CLAUDE, false)
  | .parsed _ => (.error .attributeError, false)

/-- The branch structure of `_detect_cli` (cli_manager.py lines 80-121) as a
function of `env_cli`, the already-normalized `CLI_PROVIDER` value: a
non-empty recognized value wins; a non-empty unrecognized value warns and
falls through to the settings step; an empty value goes straight to the
settings step. -/
def detectFromEnvStr (envCli : String) (file : SettingsFile) : DetectOutcome :=
  if envCli ≠ "" then
    if envCli = CLIType.OPENCODE.value then ⟨.ok .OPENCODE, false, false⟩
    else if envCli = CLIType.CLAUDE.value then ⟨.ok .CLAUDE, false, false⟩
    else ⟨(settingsStep file).1, true, (settingsStep file).2⟩
  else ⟨(settingsStep file).1, false, (settingsStep file).2⟩

/-- `CLIManager._detect_cli` (cli_manager.py lines 68-121): environment
override (`os.environ.get(CLI_PROVIDER_ENV, "").strip().lower()`), then
settings file, then the hard default `CLAUDE`. -/
def detectCli (env : Env) (file : SettingsFile) : DetectOutcome :=
  detectFromEnvStr (pyLower (pyStrip (envGetD env "CLI_PROVIDER" ""))) file

/-- A settings-file state whose settings step never raises: absent,
unreadable, malformed, or parsed to a JSON object (the counterexample to C2
is exactly the remaining case, a document that is valid JSON but not an
object). -/
def settingsObjOrMissing : SettingsFile → Bool
  | .parsed (.obj _) => true
  | .parsed _ => false
  | _ => true

/-! ## CLIProvider and sub-provider resolution (`CLIManager.get_opencode_provider`) -/

/-- `CLIProvider` enumeration (cli_manager.py lines 29-35); the source member
`LOCAL` keeps its Python spelling because `local` is reserved in Lean. -/
inductive CLIProvider where
  | CLAUDE : CLIProvider
  | OPENAI : CLIProvider
  | GOOGLE : CLIProvider
  | ZEN : CLIProvider
  | LOCAL : CLIProvider
deriving DecidableEq, Repr

/-- `CLIProvider.value`. -/
def CLIProvider.value : CLIProvider → String
  | .CLAUDE => "claude"
  | .OPENAI => "openai"
  | .GOOGLE => "google"
  | .ZEN => "zen"
  | .LOCAL => "local"

/-- The Python enum constructor `CLIProvider(provider_str)`: exact value
lookup, `ValueError` (here `none`) when no member matches. -/
def CLIProvider.ofValue : String → Option CLIProvider
  | "claude" => some .CLAUDE
  | "openai" => some .OPENAI
  | "google" => some .GOOGLE
  | "zen" => some .ZEN
  | "local" => some .LOCAL
  | _ => none

instance : DecidableEq (Except PyErr CLIProvider) := fun a b =>
  match a, b with
  | .ok x, .ok y => decidable_of_iff (x = y) (by simp)
  | .error x, .error y => decidable_of_iff (x = y) (by simp)
  | .ok _, .error _ => isFalse (by simp)
  | .error _, .ok _ => isFalse (by simp)

/-- Outcome of `CLIManager.get_opencode_provider`, together with whether the
invalid-provider warning (cli_manager.py lines 330-333) was emitted. -/
structure OCOutcome where
  result : Except PyErr CLIProvider
  warned : Bool
deriving DecidableEq, Repr

/-- The normalized `OPENCODE_PROVIDER` environment value
(cli_manager.py lines 305-307). -/
def ocEnvStr (env : Env) : String :=
  pyLower (pyStrip (envGetD env "OPENCODE_PROVIDER" ""))

/-- The settings-file block of `get_opencode_provider` (cli_manager.py lines
310-321), entered only when the environment value is blank: read the file,
take `settings.get("opencode", {})` then `.get("provider")`.  The `except`
clause catches only `json.JSONDecodeError` and `IOError`, so `.get` on a
non-dict (a non-object document, or an `opencode` field that is present but
not an object) raises `AttributeError` uncaught.  Returns the provider string
collected so far (`""` when nothing usable was found). -/
def ocSettingsStr : SettingsFile → Except PyErr String
  | .absent => .ok ""
  | .unreadable => .ok ""
  | .malformed => .ok ""
  | .parsed (.obj fs) =>
    match (objGet fs "opencode").getD (.obj []) with
    | .obj ocf =>
      match objGet ocf "provider" with
      | some v => if truthy v then .ok (pyLower (pyStrip (pyStr v))) else .ok ""
      | none => .ok ""
    | _ => .error .attributeError
  | .parsed _ => .error .attributeError

/-- A settings-file state whose `get_opencode_provider` settings block never
raises: absent, unreadable, malformed, or parsed to a JSON object whose
`opencode` field, when present, is itself an object (the counterexamples to
C3 are exactly the remaining cases). -/
def opencodeFieldBenign : SettingsFile → Bool
  | .absent => true
  | .unreadable => true
  | .malformed => true
  | .parsed (.obj fs) =>
    match (objGet fs "opencode").getD (.obj []) with
    | .obj _ => true
    | _ => false
  | .parsed _ => false

/-- The tail of `get_opencode_provider` (cli_manager.py lines 323-334):
default the empty string to `"claude"`, then the `CLIProvider(provider_str)`
lookup with the `ValueError` fallback to `CLAUDE` plus a warning. -/
def ocFinish : Except PyErr String → OCOutcome
  | .error e => ⟨.error e, false⟩
  | .ok s0 =>
    let s1 := if s0 = "" then CLIProvider.CLAUDE.value else s0
    match CLIProvider.ofValue s1 with
    | some p => ⟨.ok p, false⟩
    | none => ⟨.ok .CLAUDE, true⟩

/-- `CLIManager.get_opencode_provider` (cli_manager.py lines 291-334):
environment value; the settings block runs only when that value is blank;
then default and validation. -/
def getOpencodeProvider (env : Env) (file : SettingsFile) : OCOutcome :=
  ocFinish (if ocEnvStr env = "" then ocSettingsStr file else .ok (ocEnvStr env))

/-! ## Validation (`CLIManager.validate_cli`) -/

/-- The outcome of the `subprocess.run([cli_path, "--version"], ...)` call in
`validate_cli` (cli_manager.py lines 232-261): a completed process with exit
code and captured streams, or one of the exceptions the source handles. -/
inductive RunOutcome where
  | completed (returncode : Int) (stdout stderr : String) : RunOutcome
  /-- `subprocess.TimeoutExpired` after the 10-second timeout. -/
  | timeoutExpired : RunOutcome
  /-- `FileNotFoundError`: the executable vanished between locate and invoke. -/
  | fileNotFound : RunOutcome
  /-- `PermissionError`. -/
  | permissionError : RunOutcome
  /-- Any other exception, carrying `str(e)`. -/
  | otherError (msg : String) : RunOutcome
deriving DecidableEq, Repr

/-- The `timeout=10` argument of the `subprocess.run` call
(cli_manager.py line 238). -/
def versionProbeTimeoutSeconds : Nat := 10

/-- `self.cli_type.value.title()` (cli_manager.py line 224): Python
`str.title()` applied to the two enum values. -/
def titleValue : CLIType → String
  | .CLAUDE => "Claude"
  | .OPENCODE => "Opencode"

/-- `CLIManager.validate_cli` (cli_manager.py lines 211-261).  Inputs:
the CLI type; `get_cli_path()`'s result (`none` when no executable was
found); whether `cli_path.exists()` holds at validation time; and the
subprocess outcome.  Every path returns a `(is_valid, message)` pair. -/
def validateCli (t : CLIType) (cliPath : Option String) (pathExists : Bool)
    (run : RunOutcome) : Bool × String :=
  let cliName := titleValue t
  match cliPath with
  | none => (false, cliName ++ " CLI not found at: unknown path")
  | some p =>
    if !pathExists then
      (false, cliName ++ " CLI exists but is not executable: " ++ p)
    else
      match run with
      | .completed rc out err =>
        if rc = 0 then
          let versionInfo := pyOr (pyStrip out) (pyStrip err)
          (true, cliName ++ " CLI is working (version: " ++ versionInfo ++ ")")
        else
          let errorMsg := pyOr (pyStrip err) (pyOr (pyStrip out) "Unknown error")
          (false, cliName ++ " CLI exists but --version command failed: " ++ errorMsg)
      | .timeoutExpired => (false, cliName ++ " CLI timed out when checking version")
      | .fileNotFound => (false, cliName ++ " CLI executable not found: " ++ p)
      | .permissionError => (false, cliName ++ " CLI found but no execute permission: " ++ p)
      | .otherError m => (false, "Failed to validate " ++ cliName ++ " CLI: " ++ m)

/-! ## The command surface (`parse_args` and `_run_cli`) -/

/-- The parsed argument namespace (main.py lines 49-299), restricted to the
fields that the precondition and dispatch logic reads.  Defaults are the
argparse defaults: flags `false`, value options `none`. -/
structure Args where
  list : Bool := false
  spec : Option String := none
  info : Bool := false
  cli : Option String := none
  mergePreview : Bool := false
  merge : Bool := false
  review : Bool := false
  discard : Bool := false
  createPr : Bool := false
  qaStatus : Bool := false
  reviewStatus : Bool := false
  qa : Bool := false
  followup : Bool := false
  isolated : Bool := false
  direct : Bool := false
deriving DecidableEq, Repr

/-- Number of `true` entries in a list of flags. -/
def countTrue (l : List Bool) : Nat :=
  (l.filter id).length

/-- Whether `parse_args` accepts a flag combination.  argparse rejects an
invocation exactly when more than one member of a mutually exclusive group is
set; the source declares two such groups (main.py lines 144-178):
`workspace_group` holding `--isolated`/`--direct` and `build_group` holding
`--merge`/`--review`/`--discard`/`--create-pr`.  `--merge-preview`, `--qa`,
`--qa-status`, `--review-status` and `--followup` are declared as plain
arguments outside every group. -/
def parseAccepts (a : Args) : Bool :=
  decide (countTrue [a.isolated, a.direct] ≤ 1) &&
  decide (countTrue [a.merge, a.review, a.discard, a.createPr] ≤ 1)

/-- A terminal operation dispatched by `_run_cli` once a spec is resolved. -/
inductive Op where
  | mergePreview : Op
  | merge : Op
  | review : Op
  | discard : Op
  | createPr : Op
  | qaStatus : Op
  | reviewStatus : Op
  | qa : Op
  | followup : Op
  | build : Op
deriving DecidableEq, Repr

/-- The terminal-operation selection of `_run_cli` (main.py lines 466-553):
the chain of `if args.X: handle_X(...); return` tests, falling through to the
default build. -/
def selectOp (a : Args) : Op :=
  if a.mergePreview then .mergePreview
  else if a.merge then .merge
  else if a.review then .review
  else if a.discard then .discard
  else if a.createPr then .createPr
  else if a.qaStatus then .qaStatus
  else if a.reviewStatus then .reviewStatus
  else if a.qa then .qa
  else if a.followup then .followup
  else .build

/-- The spec's terminal-operation priority order (§4.2 of the specification:
merge-preview → merge → review → discard → create-pr → qa-status →
review-status → qa → followup), each paired with the flag requesting it.
This definition follows the specification's words; it is the refinement
target that `selectOp`, translated from the source, is compared against. -/
def specPriorityList (a : Args) : List (Bool × Op) :=
  [(a.mergePreview, .mergePreview), (a.merge, .merge), (a.review, .review),
   (a.discard, .discard), (a.createPr, .createPr), (a.qaStatus, .qaStatus),
   (a.reviewStatus, .reviewStatus), (a.qa, .qa), (a.followup, .followup)]

/-- The highest-priority set flag in the specification's fixed order, with
the default build as fallback.  Spec-derived, like `specPriorityList`. -/
def specPriorityChoice (a : Args) : Op :=
  match (specPriorityList a).find? (fun p => p.1) with
  | some p => p.2
  | none => .build

/-- The terminal outcome of `_run_cli`. -/
inductive CliOutcome where
  /-- `--info`: `print_cli_and_auth_info` ran and `_run_cli` returned. -/
  | infoDisplayed : CliOutcome
  /-- No spec identifier: usage guidance printed, `sys.exit(1)`. -/
  | specRequiredError : CliOutcome
  /-- `find_spec` failed: available specs printed, `sys.exit(1)`. -/
  | specNotFoundError : CliOutcome
  /-- A spec was resolved and exactly this handler was invoked. -/
  | dispatched (op : Op) : CliOutcome
deriving DecidableEq, Repr

/-- The `--cli` handling of `_run_cli` (main.py lines 420-424): when the
selector is given, assign `os.environ["CLI_PROVIDER"]` before anything else
runs; otherwise leave the environment untouched. -/
def applyCliOverride (env : Env) : Option String → Env
  | some v => envSet env "CLI_PROVIDER" v
  | none => env

/-- `_run_cli` (main.py lines 398-553), after argument parsing: apply the
`--cli` environment override, handle `--info`, require a spec identifier,
resolve it (`specFound` abstracts the external `find_spec` registry lookup),
and select the terminal operation.  Two source remarks this model makes
explicit: the spec-required guard line appears twice in a row in the source
(`if not args.spec:` duplicated at lines 432-433, which is not even valid
Python — modelled as the single test it performs), and the parsed `list`
flag is never consulted anywhere in `_run_cli`. -/
def runCli (a : Args) (env : Env) (specFound : Bool) : CliOutcome × Env :=
  let env1 := applyCliOverride env a.cli
  if a.info then (.infoDisplayed, env1)
  else
    match a.spec with
    | none => (.specRequiredError, env1)
    | some _ =>
      if specFound then (.dispatched (selectOp a), env1)
      else (.specNotFoundError, env1)

/-! ## Helper lemmas -/

theorem envGet_envSet_self (e : Env) (k v : String) :
    envGet (envSet e k v) k = some v := by
  simp [envGet, envSet]

theorem envGet_envSet_ne (e : Env) (k v q : String) (h : q ≠ k) :
    envGet (envSet e k v) q = envGet e q := by
  simp [envGet, envSet, h]

theorem settingsStep_ok (file : SettingsFile) (h : settingsObjOrMissing file = true) :
    ∃ t : CLIType, (settingsStep file).1 = Except.ok t := by
  cases file with
  | absent => exact ⟨.CLAUDE, rfl⟩
  | unreadable => exact ⟨.CLAUDE, rfl⟩
  | malformed => exact ⟨.CLAUDE, rfl⟩
  | parsed j =>
    cases j with
    | obj fs =>
      simp only [settingsStep]
      cases objGet fs "cli" with
      | none => exact ⟨.CLAUDE, rfl⟩
      | some v =>
        by_cases ht : truthy v = true
        · by_cases h2 : pyLower (pyStrip (pyStr v)) = CLIType.OPENCODE.value
          · exact ⟨.OPENCODE, by simp [ht, h2]⟩
          · by_cases h3 : pyLower (pyStrip (pyStr v)) = CLIType.CLAUDE.value
            · exact ⟨.CLAUDE, by simp [ht, h2, h3, CLIType.value]⟩
            · exact ⟨.CLAUDE, by simp [ht, h2, h3]⟩
        · exact ⟨.CLAUDE, by simp [ht]⟩
    | null => simp [settingsObjOrMissing] at h
    | bool b => simp [settingsObjOrMissing] at h
    | num n => simp [settingsObjOrMissing] at h
    | str s => simp [settingsObjOrMissing] at h
    | arr xs => simp [settingsObjOrMissing] at h

theorem detectFromEnvStr_ok (s : String) (file : SettingsFile)
    (h : settingsObjOrMissing file = true) :
    ∃ t : CLIType, (detectFromEnvStr s file).result = Except.ok t := by
  obtain ⟨t, ht⟩ := settingsStep_ok file h
  by_cases h1 : s = ""
  · exact ⟨t, by simp [detectFromEnvStr, h1, ht]⟩
  · by_cases h2 : s = CLIType.OPENCODE.value
    · exact ⟨.OPENCODE, by simp [detectFromEnvStr, h1, h2, CLIType.value]⟩
    · by_cases h3 : s = CLIType.CLAUDE.value
      · exact ⟨.CLAUDE, by simp [detectFromEnvStr, h1, h2, h3, CLIType.value]⟩
      · exact ⟨t, by simp [detectFromEnvStr, h1, h2, h3, ht]⟩

theorem selectOp_eq_specPriorityChoice (a : Args) :
    selectOp a = specPriorityChoice a := by
  obtain ⟨l, s, i, c, mp, mg, rv, dc, cp, qs, rs, q, fu, iso, dir⟩ := a
  cases mp <;> cases mg <;> cases rv <;> cases dc <;> cases cp <;>
    cases qs <;> cases rs <;> cases q <;> cases fu <;> rfl

/-! ## Claim C1 -/

/-- C1 (code bug): the claim says that when the listing flag is set the
listing operation runs without requiring a resolved spec.  In the source the
parsed `--list` flag is never consulted by `_run_cli`: with `--list` set and
no spec identifier and no `--info`, dispatch falls into the spec-required
error path (usage guidance, exit 1) instead of listing the specs.  (At the
very place where the listing branch would go, main.py lines 432-433 contain
the spec-required guard line duplicated — `if not args.spec:` twice in a row,
which is not even syntactically valid Python.) -/
theorem listing_flag_still_requires_spec :
    (runCli { list := true } [] false).1 = CliOutcome.specRequiredError := rfl

/-! ## Claim C2 -/

/-- C2 (counterexample): `_detect_cli` is not total.  With no environment
override and a settings file whose contents are valid JSON but not a JSON
object (here the document `[]`), `settings.get("cli")` raises
`AttributeError`, which the `except (json.JSONDecodeError, IOError, OSError)`
clause does not catch. -/
theorem detect_raises_on_array_settings :
    (detectCli [] (.parsed (.arr []))).result = Except.error PyErr.attributeError := rfl

/-- C2 (amended): `_detect_cli` raises no step and always returns a
`CLIType` for every environment and every settings-file state that is
absent, unreadable, malformed JSON, or a JSON object; file-read failures
(`IOError`/`OSError`) and parse failures (`json.JSONDecodeError`) are
swallowed and treated exactly like an absent file.  (The claim's further
case — contents that are valid JSON but not a JSON object — raises an
uncaught `AttributeError`, see the counterexample.) -/
theorem detect_total_amended (env : Env) (file : SettingsFile)
    (h : settingsObjOrMissing file = true) :
    (∃ t : CLIType, (detectCli env file).result = Except.ok t)
    ∧ detectCli env .unreadable = detectCli env .absent
    ∧ detectCli env .malformed = detectCli env .absent :=
  ⟨detectFromEnvStr_ok _ file h, rfl, rfl⟩

/-- Witness for `detect_total_amended` at a concrete input. -/
theorem detect_total_amended_witness :
    settingsObjOrMissing (.parsed (.obj [("cli", Json.str "claude")])) = true
    ∧ ∃ t : CLIType,
        (detectCli [] (.parsed (.obj [("cli", Json.str "claude")]))).result = Except.ok t :=
  ⟨rfl, (detect_total_amended [] (.parsed (.obj [("cli", Json.str "claude")])) rfl).1⟩

/-! ## Claim C3 -/

/-- C3 (counterexample): `get_opencode_provider` can fail.  With no
environment override and a settings document whose `opencode` field is
present but not a JSON object (here the number `5`),
`settings.get("opencode", \x7b\x7d).get("provider")` raises
`AttributeError`, which the `except (json.JSONDecodeError, IOError)` clause
does not catch. -/
theorem opencode_provider_raises_on_nonobject_field :
    (getOpencodeProvider [] (.parsed (.obj [("opencode", Json.num 5)]))).result
      = Except.error PyErr.attributeError := rfl

/-- C3 (amended): `get_opencode_provider` returns a `CLIProvider` without
raising for every environment and every settings-file state that is benign
for its settings block — absent, unreadable, malformed, or an object whose
`opencode` field (when present) is an object; the settings file is only
consulted when the environment override is blank, so a non-blank override
makes the function total regardless of the file.  Unrecognized values warn
and fall back to the default `CLAUDE`.  (A top level or an `opencode` field
that is valid JSON but not an object raises an uncaught `AttributeError`,
see the counterexample.) -/
theorem opencode_provider_total_amended (env : Env) (file : SettingsFile)
    (h : ocEnvStr env = "" → opencodeFieldBenign file = true) :
    (∃ p : CLIProvider, (getOpencodeProvider env file).result = Except.ok p)
    ∧ ((getOpencodeProvider env file).warned = true →
        (getOpencodeProvider env file).result = Except.ok CLIProvider.CLAUDE) := by
  have hfin : ∀ s : String,
      (∃ p : CLIProvider, (ocFinish (.ok s)).result = Except.ok p)
      ∧ ((ocFinish (.ok s)).warned = true →
          (ocFinish (.ok s)).result = Except.ok CLIProvider.CLAUDE) := by
    intro s
    by_cases h0 : s = ""
    · exact ⟨⟨.CLAUDE, by simp [ocFinish, h0, CLIProvider.value, CLIProvider.ofValue]⟩,
        by simp [ocFinish, h0, CLIProvider.value, CLIProvider.ofValue]⟩
    · unfold ocFinish
      simp only [h0, if_false]
      match hv : CLIProvider.ofValue s with
      | some p => exact ⟨⟨p, by simp [hv]⟩, by simp [hv]⟩
      | none => exact ⟨⟨.CLAUDE, by simp [hv]⟩, by simp [hv]⟩
  by_cases he : ocEnvStr env = ""
  · have hb := h he
    have hset : ∃ s : String, ocSettingsStr file = .ok s := by
      cases file with
      | absent => exact ⟨"", rfl⟩
      | unreadable => exact ⟨"", rfl⟩
      | malformed => exact ⟨"", rfl⟩
      | parsed j =>
        cases j with
        | obj fs =>
          simp only [ocSettingsStr]
          simp only [opencodeFieldBenign] at hb
          match hoc : (objGet fs "opencode").getD (.obj []) with
          | .obj ocf =>
            cases hp : objGet ocf "provider" with
            | none => exact ⟨"", by simp [hp]⟩
            | some v =>
              by_cases ht : truthy v = true
              · exact ⟨pyLower (pyStrip (pyStr v)), by simp [hp, ht]⟩
              · exact ⟨"", by simp [hp, ht]⟩
          | .null => rw [hoc] at hb; simp at hb
          | .bool b => rw [hoc] at hb; simp at hb
          | .num n => rw [hoc] at hb; simp at hb
          | .str s => rw [hoc] at hb; simp at hb
          | .arr xs => rw [hoc] at hb; simp at hb
        | null => simp [opencodeFieldBenign] at hb
        | bool b => simp [opencodeFieldBenign] at hb
        | num n => simp [opencodeFieldBenign] at hb
        | str s => simp [opencodeFieldBenign] at hb
        | arr xs => simp [opencodeFieldBenign] at hb
    obtain ⟨s, hs⟩ := hset
    have : getOpencodeProvider env file = ocFinish (.ok s) := by
      simp [getOpencodeProvider, he, hs]
    rw [this]
    exact hfin s
  · have : getOpencodeProvider env file = ocFinish (.ok (ocEnvStr env)) := by
      simp [getOpencodeProvider, he]
    rw [this]
    exact hfin _

/-- Witness for `opencode_provider_total_amended` at a concrete input. -/
theorem opencode_provider_total_amended_witness :
    ∃ p : CLIProvider,
      (getOpencodeProvider [("OPENCODE_PROVIDER", "bogus")] (.parsed (.arr []))).result
        = Except.ok p :=
  (opencode_provider_total_amended [("OPENCODE_PROVIDER", "bogus")] (.parsed (.arr []))
    (by intro h; simp [ocEnvStr, envGetD, envGet] at h; revert h; decide)).1

/-! ## Claim C4 -/

/-- C4 (confirmed): once a spec is resolved (and `--info` absent), `_run_cli`
dispatches exactly one handler, the one for the highest-priority set flag in
the fixed order merge-preview → merge → review → discard → create-pr →
qa-status → review-status → qa → followup → default build
(`selectOp` agrees with the spec-derived `specPriorityChoice` on every flag
combination); in particular, with both merge and review requested, exactly
the merge handler executes. -/
theorem dispatch_fixed_priority (a : Args) (env : Env) (s : String)
    (hspec : a.spec = some s) (hinfo : a.info = false) :
    (runCli a env true).1 = CliOutcome.dispatched (selectOp a)
    ∧ selectOp a = specPriorityChoice a
    ∧ (a.mergePreview = false → a.merge = true → a.review = true →
        selectOp a = Op.merge) := by
  refine ⟨?_, selectOp_eq_specPriorityChoice a, ?_⟩
  · simp [runCli, hinfo, hspec]
  · intro h1 h2 _
    simp [selectOp, h1, h2]

/-- Witness for `dispatch_fixed_priority` at a concrete input: both merge and
review requested, merge dispatched. -/
theorem dispatch_fixed_priority_witness :
    (runCli { spec := some "001", merge := true, review := true } [] true).1
      = CliOutcome.dispatched Op.merge := by
  have h := dispatch_fixed_priority
    { spec := some "001", merge := true, review := true } [] "001" rfl rfl
  rw [h.1, h.2.2 rfl rfl rfl]

/-! ## Claim C5 -/

/-- C5 (confirmed): `validate_cli` classifies every outcome into an
`(ok, message)` pair: exit code 0 yields ok with a message carrying the
trimmed stdout (falling back to trimmed stderr when stdout trims to empty);
nonzero exit yields not-ok with trimmed stderr (falling back to stdout, then
"Unknown error"); expiry of the 10-second version-probe timeout, an absent
executable, a vanished executable, permission denial, and any other
invocation failure each yield not-ok with their descriptive message.
Totality — the function never raises — is inherent: it is a function into
`Bool × String` covering every `RunOutcome`. -/
theorem validate_classification (t : CLIType) (p out err emsg : String)
    (rc : Int) (b : Bool) (run : RunOutcome) :
    validateCli t none b run
      = (false, titleValue t ++ " CLI not found at: unknown path")
    ∧ validateCli t (some p) false run
      = (false, titleValue t ++ " CLI exists but is not executable: " ++ p)
    ∧ (rc = 0 → validateCli t (some p) true (.completed rc out err)
        = (true, titleValue t ++ " CLI is working (version: "
            ++ pyOr (pyStrip out) (pyStrip err) ++ ")"))
    ∧ (rc ≠ 0 → validateCli t (some p) true (.completed rc out err)
        = (false, titleValue t ++ " CLI exists but --version command failed: "
            ++ pyOr (pyStrip err) (pyOr (pyStrip out) "Unknown error")))
    ∧ validateCli t (some p) true .timeoutExpired
        = (false, titleValue t ++ " CLI timed out when checking version")
    ∧ validateCli t (some p) true .fileNotFound
        = (false, titleValue t ++ " CLI executable not found: " ++ p)
    ∧ validateCli t (some p) true .permissionError
        = (false, titleValue t ++ " CLI found but no execute permission: " ++ p)
    ∧ validateCli t (some p) true (.otherError emsg)
        = (false, "Failed to validate " ++ titleValue t ++ " CLI: " ++ emsg)
    ∧ versionProbeTimeoutSeconds = 10 := by
  refine ⟨rfl, rfl, ?_, ?_, rfl, rfl, rfl, rfl, rfl⟩
  · intro h
    simp [validateCli, h]
  · intro h
    simp [validateCli, h]

/-- Witness for `validate_classification` at a concrete input: a probe that
exits 0 printing `v9.9.9` (§8 of the specification's test case). -/
theorem validate_classification_witness :
    validateCli .CLAUDE (some "/usr/local/bin/claude") true
        (.completed 0 " v9.9.9 \n" "")
      = (true, "Claude CLI is working (version: v9.9.9)") := by
  have h := validate_classification .CLAUDE "/usr/local/bin/claude"
    " v9.9.9 \n" "" "" 0 true (.completed 0 " v9.9.9 \n" "")
  rw [h.2.2.1 rfl]
  rfl

/-! ## Claim C6 -/

/-- C6 (counterexample): the claim quantifies over *every* environment
override value not matching a known literal and requires a warning.  The
value `" "` matches no literal, and resolution does proceed past it, but the
source normalizes first (`strip().lower()`) and a value that is blank after
trimming skips the `if env_cli:` block entirely: no warning is emitted
(`envWarned = false`). -/
theorem blank_override_not_warned :
    detectCli [("CLI_PROVIDER", " ")] .absent
      = ⟨Except.ok CLIType.CLAUDE, false, false⟩ := rfl

/-- C6 (amended): `_detect_cli` follows the precedence environment override,
then settings file, then hard default: every override value that is
*non-blank after trimming* and does not case-insensitively match a known
`CLIType` literal is ignored with a warning and resolution proceeds to the
settings-file step (blank values proceed there too, but silently — see the
counterexample); with no environment override and a settings file whose
`cli` field case-insensitively names `"opencode"`, it returns `OPENCODE`;
with neither source present it returns the hard default `CLAUDE`. -/
theorem detect_precedence_amended (env : Env) (file : SettingsFile) (s : String) :
    (∀ v : String, envGet env "CLI_PROVIDER" = some v →
        pyLower (pyStrip v) ≠ "" →
        pyLower (pyStrip v) ≠ CLIType.CLAUDE.value →
        pyLower (pyStrip v) ≠ CLIType.OPENCODE.value →
        detectCli env file = ⟨(settingsStep file).1, true, (settingsStep file).2⟩)
    ∧ (envGet env "CLI_PROVIDER" = none →
        pyLower (pyStrip s) = CLIType.OPENCODE.value →
        detectCli env (.parsed (.obj [("cli", Json.str s)]))
          = ⟨Except.ok CLIType.OPENCODE, false, false⟩)
    ∧ (envGet env "CLI_PROVIDER" = none →
        detectCli env .absent = ⟨Except.ok CLIType.CLAUDE, false, false⟩) := by
  refine ⟨?_, ?_, ?_⟩
  · intro v hv hb h1 h2
    have h1L : pyLower (pyStrip v) ≠ "claude" := h1
    have h2L : pyLower (pyStrip v) ≠ "opencode" := h2
    simp [detectCli, envGetD, hv, detectFromEnvStr, hb, h1L, h2L, CLIType.value]
  · intro hv hs
    have hne : s ≠ "" := by
      intro h0
      rw [h0] at hs
      revert hs
      decide
    have h00 : pyLower (pyStrip "") = "" := rfl
    simp only [detectCli, envGetD, hv, Option.getD, h00]
    simp [detectFromEnvStr, settingsStep, objGet, truthy, hne, pyStr, hs,
      CLIType.value]
  · intro hv
    have h00 : pyLower (pyStrip "") = "" := rfl
    simp only [detectCli, envGetD, hv, Option.getD, h00]
    simp [detectFromEnvStr, settingsStep]

/-- Witness for `detect_precedence_amended` at concrete inputs: a non-blank
unrecognized override warns and falls back through the (absent) settings
file; a settings file with `cli` field `"OPENCODE"` resolves case-insensitively. -/
theorem detect_precedence_amended_witness :
    detectCli [("CLI_PROVIDER", "bogus")] .absent
      = ⟨Except.ok CLIType.CLAUDE, true, false⟩
    ∧ detectCli [] (.parsed (.obj [("cli", Json.str "OPENCODE")]))
      = ⟨Except.ok CLIType.OPENCODE, false, false⟩ := by
  have h1 := (detect_precedence_amended [("CLI_PROVIDER", "bogus")] .absent "").1
    "bogus" rfl (by decide) (by decide) (by decide)
  have h2 := (detect_precedence_amended [] .absent "OPENCODE").2.1 rfl (by decide)
  exact ⟨h1, h2⟩

/-! ## Claim C7 -/

/-- C7 (counterexample): the claim says that for every environment override
value not matching a known `CLIProvider` literal, resolution proceeds to the
settings `opencode.provider` field before falling back to the default.  In
the source the settings block is guarded by `if not provider_str:` — it runs
only when the override is blank.  With the override `"bogus"` and a settings
file selecting `"openai"`, the settings file is never consulted: the result
is the default `CLAUDE` (with the invalid-provider warning), not `OPENAI`. -/
theorem opencode_env_override_skips_settings :
    getOpencodeProvider [("OPENCODE_PROVIDER", "bogus")]
        (.parsed (.obj [("opencode", Json.obj [("provider", Json.str "openai")])]))
      = ⟨Except.ok CLIProvider.CLAUDE, true⟩ := rfl

/-- C7 (amended): `get_opencode_provider` resolves by *presence*, not by
recognition: the settings `opencode.provider` field is consulted exactly when
the environment override is blank after trimming; a non-blank override that
matches a known literal is returned directly; a non-blank override that
matches no literal warns and falls back directly to the default `CLAUDE`
(the enumeration's first member) without consulting the settings; and with
a blank override and an absent settings file the default `CLAUDE` results. -/
theorem opencode_precedence_amended (env : Env) (file : SettingsFile) :
    (ocEnvStr env = "" →
        getOpencodeProvider env file = ocFinish (ocSettingsStr file))
    ∧ (∀ p : CLIProvider, ocEnvStr env = p.value →
        getOpencodeProvider env file = ⟨Except.ok p, false⟩)
    ∧ (ocEnvStr env ≠ "" → CLIProvider.ofValue (ocEnvStr env) = none →
        getOpencodeProvider env file = ⟨Except.ok CLIProvider.CLAUDE, true⟩)
    ∧ ocFinish (ocSettingsStr .absent) = ⟨Except.ok CLIProvider.CLAUDE, false⟩ := by
  refine ⟨?_, ?_, ?_, rfl⟩
  · intro h
    simp [getOpencodeProvider, h]
  · intro p hp
    have hne : ocEnvStr env ≠ "" := by
      rw [hp]
      cases p <;> decide
    rw [getOpencodeProvider, if_neg hne, hp]
    cases p <;> rfl
  · intro h1 h2
    rw [getOpencodeProvider, if_neg h1]
    simp [ocFinish, h1, h2]

/-- Witness for `opencode_precedence_amended` at concrete inputs: a
recognized override wins directly; with nothing present the default is
`CLAUDE`. -/
theorem opencode_precedence_amended_witness :
    getOpencodeProvider [("OPENCODE_PROVIDER", "zen")] .absent
      = ⟨Except.ok CLIProvider.ZEN, false⟩
    ∧ getOpencodeProvider [] .absent = ⟨Except.ok CLIProvider.CLAUDE, false⟩ := by
  have h1 := (opencode_precedence_amended [("OPENCODE_PROVIDER", "zen")] .absent).2.1
    .ZEN (by decide)
  have h2 := (opencode_precedence_amended [] .absent).1 (by decide)
  exact ⟨h1, h2⟩

/-! ## Claim C8 -/

/-- C8 (counterexample): the claim says every pair of distinct
terminal-operation flags is rejected at parse time because all of them
belong to one mutually exclusive group.  In the source only `--merge`,
`--review`, `--discard` and `--create-pr` share a group; `--qa` (like
`--merge-preview`, `--qa-status`, `--review-status` and `--followup`) is a
plain argument, so `--merge --qa` parses successfully. -/
theorem merge_qa_accepted_at_parse :
    parseAccepts { merge := true, qa := true } = true := rfl

/-- C8 (amended): the argument layer rejects at parse time exactly the
simultaneous setting of two or more flags among `--merge`, `--review`,
`--discard` and `--create-pr` (the one mutually exclusive build group, given
the workspace group `--isolated`/`--direct` is not itself violated); pairs
involving `--merge-preview`, `--qa-status`, `--review-status`, `--qa` or
`--followup` are accepted and are resolved by the dispatch priority order
instead. -/
theorem parse_exclusivity_amended (a : Args) :
    (2 ≤ countTrue [a.merge, a.review, a.discard, a.createPr] →
        parseAccepts a = false)
    ∧ (countTrue [a.merge, a.review, a.discard, a.createPr] ≤ 1 →
        countTrue [a.isolated, a.direct] ≤ 1 → parseAccepts a = true) := by
  constructor
  · intro h
    have h2 : ¬ (countTrue [a.merge, a.review, a.discard, a.createPr] ≤ 1) := by
      omega
    simp [parseAccepts, h2]
  · intro h1 h2
    simp [parseAccepts, h1, h2]

/-- Witness for `parse_exclusivity_amended` at concrete inputs: two build
group flags are rejected; two ungrouped terminal flags are accepted. -/
theorem parse_exclusivity_amended_witness :
    parseAccepts { merge := true, review := true } = false
    ∧ parseAccepts { qa := true, followup := true } = true := by
  have h1 := (parse_exclusivity_amended { merge := true, review := true }).1
    (by decide)
  have h2 := (parse_exclusivity_amended { qa := true, followup := true }).2
    (by decide) (by decide)
  exact ⟨h1, h2⟩

/-! ## Claim C9 -/

theorem runCli_snd (a : Args) (env : Env) (sf : Bool) :
    (runCli a env sf).2 = applyCliOverride env a.cli := by
  simp only [runCli]
  split
  · rfl
  · split
    · rfl
    · split <;> rfl

/-- C9 (confirmed): when `--cli` is given a value, `_run_cli` sets the
process-wide `CLI_PROVIDER` environment variable to exactly that value
before anything else runs: the post-state environment maps `CLI_PROVIDER` to
the value, every other variable is unchanged, the dispatch outcome is the
same as without the `--cli` step (the step touches nothing else), and any
`CLIManager._detect_cli` performed on the post-state environment resolves
exactly the chosen provider type regardless of the settings file (the
argparse `choices` restrict the value to `"claude"` or `"opencode"`). -/
theorem cli_override_sets_env (a : Args) (env : Env) (specFound : Bool)
    (v : String) (file : SettingsFile)
    (hc : a.cli = some v) (hv : v = "claude" ∨ v = "opencode") :
    (runCli a env specFound).2 = envSet env "CLI_PROVIDER" v
    ∧ envGet (runCli a env specFound).2 "CLI_PROVIDER" = some v
    ∧ (∀ k, k ≠ "CLI_PROVIDER" →
        envGet (runCli a env specFound).2 k = envGet env k)
    ∧ (runCli a env specFound).1 = (runCli { a with cli := none } env specFound).1
    ∧ (detectCli (runCli a env specFound).2 file).result
        = Except.ok (if v = "opencode" then CLIType.OPENCODE else CLIType.CLAUDE) := by
  have hsnd : (runCli a env specFound).2 = envSet env "CLI_PROVIDER" v := by
    rw [runCli_snd, hc]
    rfl
  refine ⟨hsnd, ?_, ?_, ?_, ?_⟩
  · rw [hsnd]
    exact envGet_envSet_self env _ v
  · intro k hk
    rw [hsnd]
    exact envGet_envSet_ne env _ v k hk
  · obtain ⟨l, sp, i, c, mp, mg, rv, dc, cp, qs, rs, q, fu, iso, dir⟩ := a
    cases i <;> cases sp <;> cases specFound <;> rfl
  · rw [hsnd]
    have hget : envGetD (envSet env "CLI_PROVIDER" v) "CLI_PROVIDER" "" = v := by
      simp [envGetD, envGet_envSet_self]
    rcases hv with h | h <;>
      · subst h
        simp only [detectCli, hget]
        rfl

/-- Witness for `cli_override_sets_env` at a concrete input. -/
theorem cli_override_sets_env_witness :
    envGet (runCli { spec := some "001", cli := some "opencode" } [] true).2
        "CLI_PROVIDER" = some "opencode"
    ∧ (detectCli (runCli { spec := some "001", cli := some "opencode" } [] true).2
          .malformed).result = Except.ok CLIType.OPENCODE := by
  have h := cli_override_sets_env { spec := some "001", cli := some "opencode" }
    [] true "opencode" .malformed rfl (Or.inr rfl)
  refine ⟨h.2.1, ?_⟩
  rw [h.2.2.2.2]
  rfl

/-! ## Claim C10 -/

/-- C10 (confirmed): a `CLI_PROVIDER` value that is empty or only whitespace
is treated exactly like an unset variable: detection proceeds to the
settings file and default identically, and the invalid-value warning that a
non-blank unrecognized value triggers is not emitted. -/
theorem blank_provider_like_unset (env envU : Env) (file : SettingsFile)
    (s : String) (hs : pyStrip s = "")
    (h1 : envGet env "CLI_PROVIDER" = some s)
    (h2 : envGet envU "CLI_PROVIDER" = none) :
    detectCli env file = detectCli envU file
    ∧ (detectCli env file).envWarned = false := by
  have hA : detectCli env file = detectFromEnvStr (pyLower (pyStrip s)) file := by
    simp [detectCli, envGetD, h1]
  have hB : detectCli envU file = detectFromEnvStr (pyLower (pyStrip "")) file := by
    simp [detectCli, envGetD, h2]
  rw [hA, hB, hs]
  exact ⟨rfl, rfl⟩

/-- Witness for `blank_provider_like_unset` at a concrete input: a
whitespace-only value against an unset variable. -/
theorem blank_provider_like_unset_witness :
    detectCli [("CLI_PROVIDER", "  ")] .absent = detectCli [] .absent
    ∧ (detectCli [("CLI_PROVIDER", "  ")] .absent).envWarned = false :=
  blank_provider_like_unset [("CLI_PROVIDER", "  ")] [] .absent "  "
    (by decide) rfl rfl

end AutoClaude
